import Mathlib

/-!
Shallow embedding of the pubmed-converter front end:
the conversion session component (src/src/PDFtoXMLConverter.jsx)
and the generic file drop widget (the DropZone component).

Files are modelled by their name and MIME type, the per-session React
state by a record, and each event handler by a pure function from the
session state (plus an environment describing the backend response and
the outcomes of fallible decoding steps) to the new state together with
the observable effects: alerts raised, network calls issued, the derived
error message, and the filename of a triggered browser save.
-/

namespace PubmedConverter

/-- A browser File object, identified by its name and MIME type. -/
structure File where
  name : String
  type : String
  deriving DecidableEq, Repr

/-- The conversionState React state: idle, converting or completed. -/
inductive ConvState where
  | idle
  | converting
  | completed
  deriving DecidableEq, Repr

/-- One entry of the errors array of validation_report.json
(element, message, optional suggestion). -/
structure ValidationIssue where
  element : String
  message : String
  suggestion : Option String
  deriving DecidableEq, Repr

/-- The React state of the PDFtoXMLConverter component. -/
structure Session where
  articleType : String
  pdfFile : Option File
  figures : List File
  conversionState : ConvState
  downloadUrl : Option String
  validationErrors : List ValidationIssue
  deriving DecidableEq, Repr

/-- The initial useState values of the component. -/
def initialSession : Session :=
  { articleType := "abstract"
    pdfFile := none
    figures := []
    conversionState := .idle
    downloadUrl := none
    validationErrors := [] }

/-- The argument handlePDFUpload receives: a single File, a list of
Files (a FileList), or null/undefined (for example from an empty drop
in single mode). -/
inductive UploadArg where
  | noFile
  | file (f : File)
  | list (fs : List File)
  deriving DecidableEq, Repr

/-- Result of handlePDFUpload: the new session state and the alerts
raised during the call. -/
structure PDFUploadResult where
  state : Session
  alerts : List String
  deriving DecidableEq, Repr

/-- handlePDFUpload: accepts the argument when it is a File whose type
is application/pdf, or a file list whose first element has that type;
then it stores the actual file, resets conversionState to idle, clears
downloadUrl and clears validationErrors.  Otherwise it alerts and
changes nothing.  The actualFile selection mirrors the JS expression
file.type ? file : file[0]. -/
def handlePDFUpload (s : Session) (file : UploadArg) : PDFUploadResult :=
  match file with
  | .noFile => ⟨s, ["Please upload a PDF file"]⟩
  | .file f =>
      if f.type = "application/pdf" then
        ⟨{ s with pdfFile := some f
                  conversionState := .idle
                  downloadUrl := none
                  validationErrors := [] }, []⟩
      else
        ⟨s, ["Please upload a PDF file"]⟩
  | .list fs =>
      match fs.head? with
      | some f =>
          if f.type = "application/pdf" then
            ⟨{ s with pdfFile := some f
                      conversionState := .idle
                      downloadUrl := none
                      validationErrors := [] }, []⟩
          else
            ⟨s, ["Please upload a PDF file"]⟩
      | none => ⟨s, ["Please upload a PDF file"]⟩

/-- The argument handleFigureUpload receives: a single File or an array
of Files (the JS code tests Array.isArray). -/
inductive FigArg where
  | one (f : File)
  | many (fs : List File)
  deriving DecidableEq, Repr

/-- handleFigureUpload: normalises the argument to an array and appends
it to the existing figures list. -/
def handleFigureUpload (s : Session) (files : FigArg) : Session :=
  let imageFiles := match files with
    | .many fs => fs
    | .one f => [f]
  { s with figures := s.figures ++ imageFiles }

/-- Outcome of reading and JSON-parsing the validation_report.json
entry: JSON.parse throws (with some message), or it yields a value
whose errors field is absent (or null) or is a list of issues. -/
inductive ReportParse where
  | throws (msg : String)
  | parsed (errors : Option (List ValidationIssue))
  deriving DecidableEq, Repr

/-- Outcome of decoding the OK response body with JSZip.loadAsync:
it throws (with some message), or yields an archive in which the entry
named validation_report.json is absent or present with a parse
outcome. -/
inductive ZipDecode where
  | throws (msg : String)
  | zip (report : Option ReportParse)
  deriving DecidableEq, Repr

/-- The backend response to the POST: an OK response with a body to be
decoded as a ZIP (url is the object URL createObjectURL returns for the
blob), or a non-OK response whose body parses as JSON with an optional
error string field (the outer none means response.json() threw). -/
inductive FetchResponse where
  | ok (body : ZipDecode) (url : String)
  | notOk (json : Option (Option String))
  deriving DecidableEq, Repr

/-- Result of handleSubmit: the new session state, how many network
calls were issued, the alerts raised, and the message of the Error
caught by the catch block, when one was thrown. -/
structure SubmitResult where
  state : Session
  networkCalls : Nat
  alerts : List String
  errorMessage : Option String
  deriving DecidableEq, Repr

/-- The JS expression data.error || generic: the error field when it is
present and a nonempty (truthy) string, the generic message
otherwise. -/
def jsOrElse (x : Option String) (generic : String) : String :=
  match x with
  | some e => if e = "" then generic else e
  | none => generic

/-- handleSubmit: alerts and returns early when no PDF is selected
(no network call).  Otherwise it sets conversionState to converting and
issues the POST.  On a non-OK response it derives the error message
from the JSON body (generic when the body does not parse) and the catch
block alerts and sets conversionState back to idle.  On an OK response
it decodes the ZIP; when a validation_report.json entry exists and its
JSON has an errors field the validationErrors state is replaced by it;
then the object URL of the blob is stored in downloadUrl and
conversionState becomes completed.  A throw from ZIP decoding or report
parsing reaches the same catch block. -/
def handleSubmit (s : Session) (response : FetchResponse) : SubmitResult :=
  match s.pdfFile with
  | none => ⟨s, 0, ["Please select a PDF file first"], none⟩
  | some _ =>
      let s1 := { s with conversionState := ConvState.converting }
      match response with
      | .notOk json =>
          let msg :=
            match json with
            | none => "Conversion failed"
            | some errField => jsOrElse errField "Conversion failed"
          ⟨{ s1 with conversionState := .idle }, 1, ["Error: " ++ msg], some msg⟩
      | .ok body url =>
          match body with
          | .throws m =>
              ⟨{ s1 with conversionState := .idle }, 1, ["Error: " ++ m], some m⟩
          | .zip report =>
              match report with
              | some (.throws m) =>
                  ⟨{ s1 with conversionState := .idle }, 1, ["Error: " ++ m], some m⟩
              | some (.parsed errs) =>
                  let s2 :=
                    match errs with
                    | some es => { s1 with validationErrors := es }
                    | none => s1
                  ⟨{ s2 with downloadUrl := some url
                             conversionState := .completed }, 1, [], none⟩
              | none =>
                  ⟨{ s1 with downloadUrl := some url
                             conversionState := .completed }, 1, [], none⟩

/-- Boolean test that pat is a prefix of a character list, written out
so that proofs can compute with it. -/
def isPrefixC : List Char → List Char → Bool
  | [], _ => true
  | _ :: _, [] => false
  | p :: ps, c :: cs => p == c && isPrefixC ps cs

/-- Remove the first occurrence of pat from a character list, as the JS
expression string.replace(pat, emptyString) does for a string pattern;
the list is unchanged when pat does not occur. -/
def replaceFirstAux (pat : List Char) : List Char → List Char
  | [] => []
  | c :: cs =>
      if isPrefixC pat (c :: cs) then (c :: cs).drop pat.length
      else c :: replaceFirstAux pat cs

/-- Boolean test that pat occurs as a contiguous sublist. -/
def containsSub (pat : List Char) : List Char → Bool
  | [] => isPrefixC pat []
  | c :: cs => isPrefixC pat (c :: cs) || containsSub pat cs

/-- The character list of the pattern the download handler replaces. -/
def pdfPat : List Char := ['.', 'p', 'd', 'f']

/-- The download filename built by handleDownload and by the success
panel: pdfFile.name.replace(dotPdf, emptyString) + dotZip. -/
def zipName (name : String) : String :=
  String.mk (replaceFirstAux pdfPat name.toList) ++ ".zip"

/-- Result of handleDownload: the new session state, the filename of
the triggered browser save (none when nothing happened), and whether
the handler crashed with a TypeError (reading name of null). -/
structure DownloadResult where
  state : Session
  savedAs : Option String
  crashed : Bool
  deriving DecidableEq, Repr

/-- handleDownload: does nothing when downloadUrl is null.  Otherwise
it triggers a save of the artifact under zipName of the selected PDF
name (a TypeError if pdfFile is null, leaving the state unchanged) and
then resets conversionState to idle and clears pdfFile, figures,
downloadUrl and validationErrors. -/
def handleDownload (s : Session) : DownloadResult :=
  match s.downloadUrl with
  | none => ⟨s, none, false⟩
  | some _ =>
      match s.pdfFile with
      | none => ⟨s, none, true⟩
      | some p =>
          ⟨{ s with conversionState := .idle
                    pdfFile := none
                    figures := []
                    downloadUrl := none
                    validationErrors := [] },
           some (zipName p.name), false⟩

/-- The disabled condition of the submit button:
no PDF selected, or conversionState is converting. -/
def submitDisabled (s : Session) : Bool :=
  s.pdfFile.isNone || s.conversionState == ConvState.converting

/-- What the DropZone passes to onFileUpload: in single mode the first
dropped file (undefined, hence none, when the drop was empty), in
multiple mode the array of newly dropped files. -/
inductive CallbackArg where
  | one (f : Option File)
  | many (fs : List File)
  deriving DecidableEq, Repr

/-- The DropZone handleDrop and handleChange handlers, which share the
same logic: in multiple mode the newly dropped files are appended to
the internal files list and the callback receives just the new files;
in single mode the internal list becomes the one-element list holding
the first dropped file (undefined on an empty drop, modelled by none)
and the callback receives that first file.  Returns the new internal
files list and the callback argument. -/
def dropZoneHandleDrop (multiple : Bool) (prev : List (Option File))
    (dropped : List File) : List (Option File) × CallbackArg :=
  if multiple then (prev ++ dropped.map some, .many dropped)
  else ([dropped.head?], .one dropped.head?)

/-- The user-level events the component reacts to. -/
inductive Event where
  | setArticleType (t : String)
  | pdfUpload (arg : UploadArg)
  | figUpload (arg : FigArg)
  | submit (response : FetchResponse)
  | download
  deriving DecidableEq, Repr

/-- The session state after handling one event (the state part of the
corresponding handler result). -/
def step (s : Session) (e : Event) : Session :=
  match e with
  | .setArticleType t => { s with articleType := t }
  | .pdfUpload a => (handlePDFUpload s a).state
  | .figUpload a => handleFigureUpload s a
  | .submit r => (handleSubmit s r).state
  | .download => (handleDownload s).state

/-- Session states reachable from the initial state by event steps. -/
inductive Reachable : Session → Prop where
  | init : Reachable initialSession
  | step {s : Session} (h : Reachable s) (e : Event) : Reachable (step s e)

/-- The filename the spec describes for the download: the name stem
with the extension replaced by the zip extension. -/
def extensionReplacedWithZip (stem : String) : String := stem ++ ".zip"

/-- A sample PDF file used in concrete instances. -/
def samplePdf : File := ⟨"doc.pdf", "application/pdf"⟩

/-- A session with a selected PDF, as after a first valid PDF upload. -/
def submitReadySession : Session :=
  { initialSession with pdfFile := some samplePdf }

/-- A session captured while a conversion request is in flight. -/
def convertingSession : Session :=
  { initialSession with
      pdfFile := some samplePdf
      conversionState := .converting }

/-- C3: selecting a new valid PDF file, from any prior session state,
replaces the stored PDF reference, forces the state to idle, discards
the download URL and clears the validation issues, raising no alert. -/
theorem pdfUpload_valid_resets (s : Session) (f : File)
    (h : f.type = "application/pdf") :
    handlePDFUpload s (.file f) =
      ⟨{ s with pdfFile := some f
                conversionState := .idle
                downloadUrl := none
                validationErrors := [] }, []⟩ := by
  simp [handlePDFUpload, h]

/-- Witness for C3 at the initial session and a concrete PDF file. -/
theorem pdfUpload_valid_resets_witness :
    handlePDFUpload initialSession (.file samplePdf) =
      ⟨{ initialSession with
          pdfFile := some samplePdf
          conversionState := .idle
          downloadUrl := none
          validationErrors := [] }, []⟩ :=
  pdfUpload_valid_resets initialSession samplePdf rfl

/-- C5: submit with no PDF selected raises one blocking alert, issues
no network call and leaves the whole session state unchanged. -/
theorem submit_no_pdf_noop (s : Session) (h : s.pdfFile = none)
    (r : FetchResponse) :
    handleSubmit s r = ⟨s, 0, ["Please select a PDF file first"], none⟩ := by
  unfold handleSubmit
  rw [h]

/-- Witness for C5 at the initial session. -/
theorem submit_no_pdf_noop_witness :
    handleSubmit initialSession (.notOk none) =
      ⟨initialSession, 0, ["Please select a PDF file first"], none⟩ :=
  submit_no_pdf_noop initialSession rfl (.notOk none)

/-- C10: a file whose type is not application/pdf, or a file list whose
first element has such a type, is rejected by the PDF intake with an
alert and the session state is left completely unchanged. -/
theorem pdfUpload_non_pdf_frame (s : Session) (f : File)
    (fs : List File) (g : File)
    (hf : f.type ≠ "application/pdf")
    (hg : fs.head? = some g) (hgt : g.type ≠ "application/pdf") :
    handlePDFUpload s (.file f) = ⟨s, ["Please upload a PDF file"]⟩ ∧
    handlePDFUpload s (.list fs) = ⟨s, ["Please upload a PDF file"]⟩ := by
  constructor
  · simp [handlePDFUpload, hf]
  · simp [handlePDFUpload, hg, hgt]

/-- Witness for C10 at a concrete PNG file and the initial session. -/
theorem pdfUpload_non_pdf_frame_witness :
    handlePDFUpload initialSession (.file ⟨"fig.png", "image/png"⟩) =
      ⟨initialSession, ["Please upload a PDF file"]⟩ ∧
    handlePDFUpload initialSession (.list [⟨"fig.png", "image/png"⟩]) =
      ⟨initialSession, ["Please upload a PDF file"]⟩ :=
  pdfUpload_non_pdf_frame initialSession ⟨"fig.png", "image/png"⟩
    [⟨"fig.png", "image/png"⟩] ⟨"fig.png", "image/png"⟩
    (by decide) rfl (by decide)

/-- C8: in multiple mode, every drop appends the newly selected files
in order to the end of the existing list and the callback receives
exactly the newly dropped files; composed with the figure upload
handler of the session, selecting F then G yields a figure list ending
in F, G with all prior entries preserved. -/
theorem figure_drop_appends (prev : List (Option File)) (ds : List File)
    (s : Session) (F G : File) :
    dropZoneHandleDrop true prev ds = (prev ++ ds.map some, .many ds) ∧
    dropZoneHandleDrop true (dropZoneHandleDrop true prev [F]).1 [G]
      = (prev ++ [some F, some G], .many [G]) ∧
    handleFigureUpload s (.many ds) = { s with figures := s.figures ++ ds } ∧
    handleFigureUpload (handleFigureUpload s (.many [F])) (.many [G])
      = { s with figures := s.figures ++ [F, G] } := by
  refine ⟨rfl, ?_, rfl, ?_⟩
  · simp [dropZoneHandleDrop]
  · simp [handleFigureUpload]

/-- C1 counterexample: handleSubmit invoked while the state is
converting, with a PDF selected, issues a network call and changes the
session state; it does not abort as the claim states. -/
theorem submit_while_converting_not_aborted :
    (handleSubmit convertingSession (.notOk none)).networkCalls = 1 ∧
    (handleSubmit convertingSession (.notOk none)).state ≠ convertingSession := by
  decide

/-- C1 amended: the submit handler has no converting-state guard and
issues its network call whenever a PDF is selected, regardless of the
state; re-entrant submission is prevented only by the submit control,
which is disabled whenever the state is converting. -/
theorem submit_guard_is_ui_only (s : Session)
    (hc : s.conversionState = .converting)
    (p : File) (hp : s.pdfFile = some p) (r : FetchResponse) :
    submitDisabled s = true ∧ (handleSubmit s r).networkCalls = 1 := by
  constructor
  · simp [submitDisabled, hc]
  · unfold handleSubmit
    rw [hp]
    rcases r with ⟨body, url⟩ | j
    · rcases body with m | rep
      · rfl
      · rcases rep with _ | rp
        · rfl
        · rcases rp with m | errs
          · rfl
          · rcases errs with _ | es <;> rfl
    · rfl

/-- Witness for the amended C1 at the concrete converting session. -/
theorem submit_guard_is_ui_only_witness :
    submitDisabled convertingSession = true ∧
    (handleSubmit convertingSession (.notOk none)).networkCalls = 1 :=
  submit_guard_is_ui_only convertingSession rfl samplePdf rfl (.notOk none)

/-- C4 counterexample: for a non-OK response whose JSON body has the
error field set to the empty string, the surfaced message is the
generic one, not the error field verbatim as the claim states. -/
theorem submit_empty_error_field_not_verbatim :
    (handleSubmit submitReadySession (.notOk (some (some "")))).errorMessage
      = some "Conversion failed" ∧
    (handleSubmit submitReadySession (.notOk (some (some "")))).errorMessage
      ≠ some "" := by
  decide

/-- C4 amended: on a non-OK response the session returns to idle with
the download URL and validation issues untouched, and the derived error
message is the error field of the parsed JSON body when that field is a
nonempty string, and the generic Conversion failed message when the
body does not parse, the field is absent, or the field is empty. -/
theorem submit_failure_error_message (s : Session) (p : File)
    (hp : s.pdfFile = some p) (e : String) (he : e ≠ "") :
    (handleSubmit s (.notOk (some (some e)))).errorMessage = some e ∧
    (handleSubmit s (.notOk (some (some e)))).state.conversionState = .idle ∧
    (handleSubmit s (.notOk (some (some e)))).state.downloadUrl = s.downloadUrl ∧
    (handleSubmit s (.notOk (some (some e)))).state.validationErrors
      = s.validationErrors ∧
    (handleSubmit s (.notOk (some (some e)))).networkCalls = 1 ∧
    (handleSubmit s (.notOk none)).errorMessage = some "Conversion failed" ∧
    (handleSubmit s (.notOk (some none))).errorMessage
      = some "Conversion failed" ∧
    (handleSubmit s (.notOk (some (some "")))).errorMessage
      = some "Conversion failed" := by
  unfold handleSubmit jsOrElse
  rw [hp]
  simp [he]

/-- Witness for the amended C4 at the concrete bad pdf example from
the spec. -/
theorem submit_failure_error_message_witness :
    (handleSubmit submitReadySession (.notOk (some (some "bad pdf")))).errorMessage
      = some "bad pdf" ∧
    (handleSubmit submitReadySession
        (.notOk (some (some "bad pdf")))).state.conversionState = .idle ∧
    (handleSubmit submitReadySession
        (.notOk (some (some "bad pdf")))).state.downloadUrl
      = submitReadySession.downloadUrl ∧
    (handleSubmit submitReadySession
        (.notOk (some (some "bad pdf")))).state.validationErrors
      = submitReadySession.validationErrors ∧
    (handleSubmit submitReadySession
        (.notOk (some (some "bad pdf")))).networkCalls = 1 ∧
    (handleSubmit submitReadySession (.notOk none)).errorMessage
      = some "Conversion failed" ∧
    (handleSubmit submitReadySession (.notOk (some none))).errorMessage
      = some "Conversion failed" ∧
    (handleSubmit submitReadySession (.notOk (some (some "")))).errorMessage
      = some "Conversion failed" :=
  submit_failure_error_message submitReadySession samplePdf rfl "bad pdf"
    (by decide)

/-- A validation issue used in concrete instances. -/
def titleIssue : ValidationIssue := ⟨"title", "missing", none⟩

/-- A reachable session holding a stale validation issue from an
earlier successful conversion: a PDF upload followed by a successful
submit whose report listed one issue. -/
def staleIssueSession : Session :=
  step (step initialSession (.pdfUpload (.file samplePdf)))
    (.submit (.ok (.zip (some (.parsed (some [titleIssue])))) "blob:1"))

/-- C2 counterexample: a successful submit whose response ZIP contains
no validation report entry leaves the previous validation issues in
place, so the collection is not empty after such a submit, contrary to
the claim. -/
theorem submit_without_report_keeps_stale_issues :
    (handleSubmit staleIssueSession
        (.ok (.zip none) "blob:2")).state.conversionState = .completed ∧
    (handleSubmit staleIssueSession
        (.ok (.zip none) "blob:2")).state.validationErrors = [titleIssue] ∧
    (handleSubmit staleIssueSession
        (.ok (.zip none) "blob:2")).state.validationErrors ≠ [] := by
  decide

/-- C2 amended: on a successful conversion the validation collection is
replaced wholesale exactly when the response ZIP carries a validation
report whose JSON has an errors field; when the report entry is absent,
or has no errors field, the collection keeps its prior value, and the
state still becomes completed with the download URL set. -/
theorem submit_success_validation_replacement (s : Session) (p : File)
    (hp : s.pdfFile = some p) (url : String) (es : List ValidationIssue) :
    (handleSubmit s (.ok (.zip none) url)).state.validationErrors
      = s.validationErrors ∧
    (handleSubmit s (.ok (.zip none) url)).state.conversionState = .completed ∧
    (handleSubmit s (.ok (.zip none) url)).state.downloadUrl = some url ∧
    (handleSubmit s
        (.ok (.zip (some (.parsed (some es)))) url)).state.validationErrors
      = es ∧
    (handleSubmit s
        (.ok (.zip (some (.parsed (some es)))) url)).state.conversionState
      = .completed ∧
    (handleSubmit s
        (.ok (.zip (some (.parsed none))) url)).state.validationErrors
      = s.validationErrors := by
  unfold handleSubmit
  rw [hp]
  simp

/-- Witness for the amended C2 at a fresh submit-ready session. -/
theorem submit_success_validation_replacement_witness :
    (handleSubmit submitReadySession
        (.ok (.zip none) "blob:3")).state.validationErrors
      = submitReadySession.validationErrors ∧
    (handleSubmit submitReadySession
        (.ok (.zip none) "blob:3")).state.conversionState = .completed ∧
    (handleSubmit submitReadySession
        (.ok (.zip none) "blob:3")).state.downloadUrl = some "blob:3" ∧
    (handleSubmit submitReadySession
        (.ok (.zip (some (.parsed (some [titleIssue]))))
          "blob:3")).state.validationErrors = [titleIssue] ∧
    (handleSubmit submitReadySession
        (.ok (.zip (some (.parsed (some [titleIssue]))))
          "blob:3")).state.conversionState = .completed ∧
    (handleSubmit submitReadySession
        (.ok (.zip (some (.parsed none))) "blob:3")).state.validationErrors
      = submitReadySession.validationErrors :=
  submit_success_validation_replacement submitReadySession samplePdf rfl
    "blob:3" [titleIssue]

/-- C9: after an OK response, a throw from ZIP decoding or from JSON
parsing of the validation report is caught by the generic error path:
an alert is raised with the thrown message, the state reverts to idle
and the download URL is untouched, so no artifact is created. -/
theorem submit_decode_or_parse_throw_reverts (s : Session) (p : File)
    (hp : s.pdfFile = some p) (m url : String) :
    (handleSubmit s (.ok (.throws m) url)).state.conversionState = .idle ∧
    (handleSubmit s (.ok (.throws m) url)).state.downloadUrl
      = s.downloadUrl ∧
    (handleSubmit s (.ok (.throws m) url)).alerts = ["Error: " ++ m] ∧
    (handleSubmit s (.ok (.throws m) url)).errorMessage = some m ∧
    (handleSubmit s
        (.ok (.zip (some (.throws m))) url)).state.conversionState = .idle ∧
    (handleSubmit s (.ok (.zip (some (.throws m))) url)).state.downloadUrl
      = s.downloadUrl ∧
    (handleSubmit s (.ok (.zip (some (.throws m))) url)).alerts
      = ["Error: " ++ m] ∧
    (handleSubmit s (.ok (.zip (some (.throws m))) url)).errorMessage
      = some m := by
  unfold handleSubmit
  rw [hp]
  simp

/-- Witness for C9 at a fresh submit-ready session and a concrete
thrown message. -/
theorem submit_decode_or_parse_throw_reverts_witness :
    (handleSubmit submitReadySession
        (.ok (.throws "bad zip") "blob:4")).state.conversionState = .idle ∧
    (handleSubmit submitReadySession
        (.ok (.throws "bad zip") "blob:4")).state.downloadUrl
      = submitReadySession.downloadUrl ∧
    (handleSubmit submitReadySession (.ok (.throws "bad zip") "blob:4")).alerts
      = ["Error: " ++ "bad zip"] ∧
    (handleSubmit submitReadySession
        (.ok (.throws "bad zip") "blob:4")).errorMessage = some "bad zip" ∧
    (handleSubmit submitReadySession
        (.ok (.zip (some (.throws "bad zip"))) "blob:4")).state.conversionState
      = .idle ∧
    (handleSubmit submitReadySession
        (.ok (.zip (some (.throws "bad zip"))) "blob:4")).state.downloadUrl
      = submitReadySession.downloadUrl ∧
    (handleSubmit submitReadySession
        (.ok (.zip (some (.throws "bad zip"))) "blob:4")).alerts
      = ["Error: " ++ "bad zip"] ∧
    (handleSubmit submitReadySession
        (.ok (.zip (some (.throws "bad zip"))) "blob:4")).errorMessage
      = some "bad zip" :=
  submit_decode_or_parse_throw_reverts submitReadySession samplePdf rfl
    "bad zip" "blob:4"

/-- Invariant of reachable sessions: in the completed state a download
URL is held, and whenever a download URL is held a PDF is selected. -/
theorem reachable_artifact_inv {s : Session} (h : Reachable s) :
    (s.conversionState = .completed → s.downloadUrl.isSome = true) ∧
    (s.downloadUrl.isSome = true → s.pdfFile.isSome = true) := by
  induction h with
  | init => simp [initialSession]
  | step h e ih =>
      rename_i s
      cases e with
      | setArticleType t => simpa [step] using ih
      | pdfUpload a =>
          cases a with
          | noFile => simpa [step, handlePDFUpload] using ih
          | file f =>
              by_cases hf : f.type = "application/pdf"
              · simp [step, handlePDFUpload, hf]
              · simpa [step, handlePDFUpload, hf] using ih
          | list fs =>
              cases hh : fs.head? with
              | none => simpa [step, handlePDFUpload, hh] using ih
              | some g =>
                  by_cases hg : g.type = "application/pdf"
                  · simp [step, handlePDFUpload, hh, hg]
                  · simpa [step, handlePDFUpload, hh, hg] using ih
      | figUpload a => simpa [step, handleFigureUpload] using ih
      | submit r =>
          cases hp : s.pdfFile with
          | none => simpa [step, handleSubmit, hp] using ih
          | some p =>
              rcases r with ⟨body, url⟩ | j
              · rcases body with m | rep
                · simp [step, handleSubmit, hp]
                · rcases rep with _ | rp
                  · simp [step, handleSubmit, hp]
                  · rcases rp with m | errs
                    · simp [step, handleSubmit, hp]
                    · rcases errs with _ | es <;> simp [step, handleSubmit, hp]
              · simp [step, handleSubmit, hp]
      | download =>
          cases hu : s.downloadUrl with
          | none => simpa [step, handleDownload, hu] using ih
          | some u =>
              cases hp : s.pdfFile with
              | none =>
                  simp only [step, handleDownload, hu, hp] at ih ⊢
                  exact ih
              | some p => simp [step, handleDownload, hu, hp]

/-- C6: triggering download from any reachable completed session saves
the artifact and then resets the session: state idle, PDF cleared,
figures cleared, download URL released, validation issues cleared; a
subsequent submit on the reset session is again an alert-only no-op
with no network call. -/
theorem download_after_completion_resets (s : Session) (hr : Reachable s)
    (hc : s.conversionState = .completed) (r : FetchResponse) :
    (handleDownload s).savedAs.isSome = true ∧
    (handleDownload s).state.conversionState = .idle ∧
    (handleDownload s).state.pdfFile = none ∧
    (handleDownload s).state.figures = [] ∧
    (handleDownload s).state.downloadUrl = none ∧
    (handleDownload s).state.validationErrors = [] ∧
    (handleSubmit (handleDownload s).state r).state = (handleDownload s).state ∧
    (handleSubmit (handleDownload s).state r).networkCalls = 0 ∧
    (handleSubmit (handleDownload s).state r).alerts
      = ["Please select a PDF file first"] := by
  obtain ⟨h1, h2⟩ := reachable_artifact_inv hr
  obtain ⟨u, hu⟩ := Option.isSome_iff_exists.mp (h1 hc)
  obtain ⟨p, hp⟩ := Option.isSome_iff_exists.mp (h2 (h1 hc))
  simp [handleDownload, handleSubmit, hu, hp]

/-- A reachable completed session: a valid PDF upload followed by a
successful submit whose response ZIP has no validation report. -/
def completedSession : Session :=
  step (step initialSession (.pdfUpload (.file samplePdf)))
    (.submit (.ok (.zip none) "blob:z"))

/-- Witness for C6 at the concrete reachable completed session. -/
theorem download_after_completion_resets_witness :
    (handleDownload completedSession).savedAs.isSome = true ∧
    (handleDownload completedSession).state.conversionState = .idle ∧
    (handleDownload completedSession).state.pdfFile = none ∧
    (handleDownload completedSession).state.figures = [] ∧
    (handleDownload completedSession).state.downloadUrl = none ∧
    (handleDownload completedSession).state.validationErrors = [] ∧
    (handleSubmit (handleDownload completedSession).state (.notOk none)).state
      = (handleDownload completedSession).state ∧
    (handleSubmit (handleDownload completedSession).state
        (.notOk none)).networkCalls = 0 ∧
    (handleSubmit (handleDownload completedSession).state (.notOk none)).alerts
      = ["Please select a PDF file first"] :=
  download_after_completion_resets completedSession
    (Reachable.step (Reachable.step Reachable.init (.pdfUpload (.file samplePdf)))
      (.submit (.ok (.zip none) "blob:z")))
    (by decide) (.notOk none)

/-- A list is a prefix of itself followed by anything. -/
theorem isPrefixC_append_self (pat rest : List Char) :
    isPrefixC pat (pat ++ rest) = true := by
  induction pat with
  | nil => rfl
  | cons p ps ih => simp [isPrefixC, ih]

/-- The pattern of the download rename cannot match across the boundary
of a list and a trailing copy of the pattern: a match there is either
the trailing copy itself or a match already inside the list.  This
holds because every proper prefix of the pattern, continued by the
start of the pattern, mismatches. -/
theorem pdfPat_no_straddle (l : List Char)
    (h : isPrefixC pdfPat (l ++ pdfPat) = true) :
    l = [] ∨ isPrefixC pdfPat l = true := by
  match l with
  | [] => exact Or.inl rfl
  | [a] => simp [pdfPat, isPrefixC] at h
  | [a, b] => simp [pdfPat, isPrefixC] at h
  | [a, b, c] => simp [pdfPat, isPrefixC] at h
  | a :: b :: c :: d :: rest =>
      refine Or.inr ?_
      simp only [pdfPat, isPrefixC, List.cons_append, Bool.and_eq_true] at h ⊢
      exact h

/-- Removing the first occurrence of the pattern from a list that is a
pattern-free stem followed by the pattern yields exactly the stem. -/
theorem replaceFirstAux_stem_pdf (stemL : List Char)
    (h : containsSub pdfPat stemL = false) :
    replaceFirstAux pdfPat (stemL ++ pdfPat) = stemL := by
  induction stemL with
  | nil => decide
  | cons c cs ih =>
      have hsplit : isPrefixC pdfPat (c :: cs) = false ∧
          containsSub pdfPat cs = false := by
        simpa [containsSub, Bool.or_eq_false_iff] using h
      have hnp : isPrefixC pdfPat ((c :: cs) ++ pdfPat) = false := by
        cases hcase : isPrefixC pdfPat ((c :: cs) ++ pdfPat) with
        | false => rfl
        | true =>
            rcases pdfPat_no_straddle (c :: cs) hcase with h1 | h1
            · exact absurd h1 (by simp)
            · rw [hsplit.1] at h1
              exact absurd h1 (by simp)
      have hnp' : isPrefixC pdfPat (c :: (cs ++ pdfPat)) = false := by
        simpa [List.cons_append] using hnp
      simp [List.cons_append, replaceFirstAux, hnp', ih hsplit.2]

/-- C7 counterexample: for the PDF name a.pdf_v2.pdf the download
filename removes the first occurrence of the pattern, yielding
a_v2.pdf.zip, not the extension replacement a.pdf_v2.zip the claim
describes. -/
theorem zipName_not_extension_replacement :
    zipName "a.pdf_v2.pdf" = "a_v2.pdf.zip" ∧
    zipName "a.pdf_v2.pdf" ≠ extensionReplacedWithZip "a.pdf_v2" := by
  decide

/-- C7 amended: the download filename is the PDF name with the first
occurrence of the substring dot pdf removed and the zip extension
appended; when that substring occurs nowhere in the stem, so that its
only occurrence is the final extension, this coincides with replacing
the extension by zip. -/
theorem zipName_replaces_extension (stem : String)
    (h : containsSub pdfPat stem.toList = false) :
    zipName (stem ++ ".pdf") = extensionReplacedWithZip stem := by
  have hdata : (stem ++ ".pdf").toList = stem.toList ++ pdfPat := by
    show (stem ++ ".pdf").data = stem.data ++ pdfPat
    rw [String.data_append]
    rfl
  unfold zipName extensionReplacedWithZip
  rw [hdata, replaceFirstAux_stem_pdf stem.toList h]
  show String.mk stem.data ++ ".zip" = stem ++ ".zip"
  rfl

/-- Witness for the amended C7 at the concrete name report.pdf. -/
theorem zipName_replaces_extension_witness :
    zipName ("report" ++ ".pdf") = extensionReplacedWithZip "report" :=
  zipName_replaces_extension "report" (by decide)

end PubmedConverter
